import Mathlib

/-
Verification of the arborist command-line tool (Rust sources: src/main.rs,
src/git.rs, src/error.rs) against its natural-language specification.

The tool is a thin orchestration layer over the external `git` binary and the
OS process layer. We shallowly embed it as follows:

* every external subprocess invocation is resolved by a `GitWorld` (for git
  queries and mutations) or an `ExecWorld` (for the user command): the world
  maps the argument list the code would pass to the subprocess to the outcome
  the subprocess produced (spawn failure, nonzero exit with stderr, or success
  with stdout);
* functions that issue subprocess calls additionally return the list of
  argument vectors they issued, in order, so that facts such as "branch
  deletion is not attempted" are visible in the model;
* the orchestrator run() of main.rs is embedded as a success-path action
  trace (`run_trace`): the git query results it branches on (repository
  info, branch existence, post-run status) are parameters, and the side
  effects it performs are recorded as an action list.

Paths are modelled as strings (the Rust code converts every path to a UTF-8
string before use; the non-UTF-8 failure path of path_to_string is therefore
vacuous in the model). PathBuf::join of the components the program actually
builds is string concatenation with a slash separator.
-/

namespace Arborist

/-- Embedding of ArboristError from src/error.rs. The payload of IoError is
kept as the rendered message string of the underlying io::Error. -/
inductive ArboristError where
  | gitOperationFailed (msg : String)
  | invalidPath (msg : String)
  | ioError (msg : String)
deriving DecidableEq, Repr

/-- The Display implementation of ArboristError from src/error.rs. -/
def ArboristError.message : ArboristError → String
  | .gitOperationFailed msg => "Git operation failed: " ++ msg
  | .invalidPath msg => "Invalid path: " ++ msg
  | .ioError msg => "IO error: " ++ msg

/-- Outcome of one external subprocess invocation, as observed through the
duct crate with `.unchecked()`: the spawn itself can fail (duct run() returns
Err), or the process runs and exits with success or failure, with captured
output. -/
inductive CmdResult where
  | spawnError (msg : String)
  | failure (stderr : String)
  | success (stdout : String)
deriving DecidableEq, Repr

/-- The external environment of src/git.rs: `resolve` maps the argument list
passed to the git binary to the outcome of that invocation; `dirExists` and
`createDirOk` model the filesystem queries of ensure_worktree_base_dir. -/
structure GitWorld where
  resolve : List String → CmdResult
  dirExists : String → Bool
  createDirOk : String → Bool

/-- Embedding of str::trim from the Rust standard library: strip leading and
trailing whitespace. -/
def trim_string (s : String) : String :=
  String.mk ((((s.toList.dropWhile Char.isWhitespace).reverse).dropWhile
    Char.isWhitespace).reverse)

/-- Embedding of str::parse::<usize> as used on the output of
`git rev-list --count`: an optional leading plus sign followed by at least
one decimal digit; anything else fails to parse. (The usize overflow failure
mode is not modelled; ahead counts never approach it.) -/
def parse_usize (s : String) : Option Nat :=
  let cs := match s.toList with
    | '+' :: rest => rest
    | cs => cs
  match cs with
  | [] => none
  | _ =>
    if cs.all Char.isDigit then
      some (cs.foldl (fun acc c => acc * 10 + (c.toNat - 48)) 0)
    else none

/-- Embedding of run_git_cmd from src/git.rs: runs git with the given
arguments, returns trimmed stdout on success, a GitOperationFailed error
carrying trimmed stderr on nonzero exit, and an IoError when the spawn
fails. Also returns the list of git invocations issued (here: exactly one). -/
def run_git_cmd (w : GitWorld) (args : List String) :
    Except ArboristError String × List (List String) :=
  match w.resolve args with
  | .spawnError msg => (.error (.ioError msg), [args])
  | .failure stderr => (.error (.gitOperationFailed (trim_string stderr)), [args])
  | .success stdout => (.ok (trim_string stdout), [args])

/-- Split a character list at every occurrence of the separator. -/
def split_chars (sep : Char) : List Char → List (List Char)
  | [] => [[]]
  | c :: rest =>
    let r := split_chars sep rest
    if c = sep then [] :: r
    else
      match r with
      | [] => [[c]]
      | h :: t => (c :: h) :: t

/-- Embedding of Path::parent for the multi-component absolute paths the
program builds: drop the final slash-separated component. -/
def path_parent (p : String) : Option String :=
  let comps := split_chars '/' p.toList
  if comps.length ≤ 1 then none
  else some (String.mk (List.intercalate ['/'] comps.dropLast))

/-- Embedding of ensure_worktree_base_dir from src/git.rs: if the parent of
the worktree path does not exist, create it recursively; directory-creation
failure is an IoError. -/
def ensure_worktree_base_dir (w : GitWorld) (worktree_path : String) :
    Except ArboristError Unit :=
  match path_parent worktree_path with
  | some parent =>
    if w.dirExists parent then .ok ()
    else if w.createDirOk parent then .ok ()
    else .error (.ioError ("Failed to create worktree base directory " ++ parent))
  | none => .ok ()

/-- Boolean substring containment on character lists, modelling
str::contains of the Rust standard library: the needle occurs contiguously
somewhere in the haystack. -/
def contains_sub : List Char → List Char → Bool
  | hay, needle =>
    needle.isPrefixOf hay ||
      match hay with
      | [] => false
      | _ :: t => contains_sub t needle

/-- Embedding of worktree_exists from src/git.rs: true iff the output of
`git worktree list` contains the path string as a substring. -/
def worktree_exists (w : GitWorld) (path : String) :
    Except ArboristError Bool × List (List String) :=
  match run_git_cmd w ["worktree", "list"] with
  | (.ok output, log) => (.ok (contains_sub output.toList path.toList), log)
  | (.error e, log) => (.error e, log)

/-- Embedding of create_worktree from src/git.rs: ensure the base directory,
no-op if a worktree already exists at the path, otherwise run
`git worktree add -b branch path commit` and, when an upstream branch is
given, set it as the tracking branch of the new branch. -/
def create_worktree (w : GitWorld) (path branch commit : String)
    (upstream_branch : Option String) :
    Except ArboristError Unit × List (List String) :=
  match ensure_worktree_base_dir w path with
  | .error e => (.error e, [])
  | .ok _ =>
    match worktree_exists w path with
    | (.error e, log) => (.error e, log)
    | (.ok true, log) => (.ok (), log)
    | (.ok false, log) =>
      let addCmd := ["worktree", "add", "-b", branch, path, commit]
      match w.resolve addCmd with
      | .spawnError msg => (.error (.ioError msg), log ++ [addCmd])
      | .failure stderr =>
        (.error (.gitOperationFailed ("Failed to create worktree: " ++ stderr)),
         log ++ [addCmd])
      | .success _ =>
        match upstream_branch with
        | none => (.ok (), log ++ [addCmd])
        | some upstream =>
          let upCmd := ["-C", path, "branch", "--set-upstream-to", upstream]
          match w.resolve upCmd with
          | .spawnError msg => (.error (.ioError msg), log ++ [addCmd, upCmd])
          | .failure stderr =>
            (.error (.gitOperationFailed
               ("Failed to set upstream tracking branch: " ++ stderr)),
             log ++ [addCmd, upCmd])
          | .success _ => (.ok (), log ++ [addCmd, upCmd])

/-- Embedding of remove_worktree from src/git.rs: run
`git worktree remove path --force`, erroring with the captured stderr on
nonzero exit. -/
def remove_worktree (w : GitWorld) (path : String) :
    Except ArboristError Unit × List (List String) :=
  let rmCmd := ["worktree", "remove", path, "--force"]
  match w.resolve rmCmd with
  | .spawnError msg => (.error (.ioError msg), [rmCmd])
  | .failure stderr =>
    (.error (.gitOperationFailed ("Failed to remove worktree: " ++ stderr)), [rmCmd])
  | .success _ => (.ok (), [rmCmd])

/-- Embedding of delete_branch from src/git.rs: run `git branch -D branch`
through run_git_cmd and discard the output. -/
def delete_branch (w : GitWorld) (branch : String) :
    Except ArboristError Unit × List (List String) :=
  match run_git_cmd w ["branch", "-D", branch] with
  | (.ok _, log) => (.ok (), log)
  | (.error e, log) => (.error e, log)

/-- Embedding of remove_worktree_and_branch from src/git.rs: first remove the
worktree; only if that succeeded, delete the branch. -/
def remove_worktree_and_branch (w : GitWorld) (path branch : String) :
    Except ArboristError Unit × List (List String) :=
  match remove_worktree w path with
  | (.error e, log1) => (.error e, log1)
  | (.ok _, log1) =>
    match delete_branch w branch with
    | (r2, log2) => (r2, log1 ++ log2)

/-- Embedding of has_uncommitted_changes from src/git.rs: true iff
`git status --porcelain` produces nonempty (trimmed) output. -/
def has_uncommitted_changes (w : GitWorld) :
    Except ArboristError Bool × List (List String) :=
  match run_git_cmd w ["status", "--porcelain"] with
  | (.ok output, log) => (.ok (!output.isEmpty), log)
  | (.error e, log) => (.error e, log)

/-- Embedding of get_commits_ahead from src/git.rs: if resolving the upstream
ref fails for any reason, return 0 (absence of upstream is a normal
condition); otherwise parse the output of
`git rev-list --count upstream..HEAD`, defaulting to 0 when unparsable. -/
def get_commits_ahead (w : GitWorld) :
    Except ArboristError Nat × List (List String) :=
  match run_git_cmd w ["rev-parse", "--abbrev-ref", "@\x7bupstream\x7d"] with
  | (.ok _, log1) =>
    match run_git_cmd w ["rev-list", "--count", "@\x7bupstream\x7d..HEAD"] with
    | (.ok out, log2) => (.ok ((parse_usize out).getD 0), log1 ++ log2)
    | (.error e, log2) => (.error e, log1 ++ log2)
  | (.error _, log1) => (.ok 0, log1)

/-- Embedding of WorktreeStatus from src/git.rs. The commits_ahead field is a
usize in the source, embedded as a natural number. -/
structure WorktreeStatus where
  has_changes : Bool
  commits_ahead : Nat
deriving DecidableEq, Repr

/-- Embedding of get_worktree_status from src/git.rs. -/
def get_worktree_status (w : GitWorld) :
    Except ArboristError WorktreeStatus × List (List String) :=
  match has_uncommitted_changes w with
  | (.error e, log1) => (.error e, log1)
  | (.ok hc, log1) =>
    match get_commits_ahead w with
    | (.error e, log2) => (.error e, log1 ++ log2)
    | (.ok ca, log2) => (.ok ⟨hc, ca⟩, log1 ++ log2)

/-- Embedding of compute_nonbare_worktree_path from src/git.rs. The SHA-256
implementation comes from the external sha2 crate and is passed in as a
function from the repository root string to its lowercase hex digest. -/
def compute_nonbare_worktree_path (sha256_hex : String → String)
    (repo_root : String) (color : String) : String :=
  "/tmp/arborist/" ++ sha256_hex repo_root ++ "/" ++ color

/-- Embedding of GitRepo from src/git.rs. -/
structure GitRepo where
  root : String
  current_branch : String
  current_commit : String
  is_bare : Bool
deriving DecidableEq, Repr

/-- The fixed color palette COLORS from src/main.rs. -/
def COLORS : List String :=
  ["red", "blue", "green", "yellow", "purple", "orange", "pink", "cyan",
   "teal", "magenta", "violet", "amber", "crimson", "navy", "indigo", "lime",
   "coral", "maroon", "turquoise", "slate", "lavender", "mint", "peach",
   "ruby", "sapphire", "emerald", "topaz"]

/-- Embedding of select_color from src/main.rs: SliceRandom::choose picks one
palette entry uniformly at random; the index drawn by the random number
generator is the parameter. select_color consults nothing but this draw:
in particular it takes no process id of any kind. -/
def select_color (draw : Fin COLORS.length) : String :=
  COLORS.get draw

/-- Outcome of spawning the user command, as observed through duct with
`.unchecked()`: the spawn (or pipe handling) can fail, or the child
terminates, possibly without an exit code (killed by a signal). -/
inductive SpawnOutcome where
  | spawnError (msg : String)
  | exited (code : Option Int)
deriving DecidableEq, Repr

/-- The external environment of execute_shell_command: maps the program and
its argument list to the outcome of running it. -/
structure ExecWorld where
  spawn : String → List String → SpawnOutcome

/-- Embedding of execute_shell_command from src/main.rs: an empty command
list returns exit code 0 without spawning; otherwise the first element is
the program and the rest its arguments; a child that terminates without an
exit code yields 1; a spawn failure is propagated as an error. The second
component records the subprocesses spawned. -/
def execute_shell_command (w : ExecWorld) (command_args : List String) :
    Except ArboristError Int × List (String × List String) :=
  match command_args with
  | [] => (.ok 0, [])
  | program :: args =>
    match w.spawn program args with
    | .spawnError msg => (.error (.ioError msg), [(program, args)])
    | .exited code => (.ok (code.getD 1), [(program, args)])

/-- Embedding of main from src/main.rs: the process exit code and the error
line printed to stderr, as a function of the result of run(). -/
def main_exit_and_stderr (r : Except ArboristError Int) : Int × List String :=
  match r with
  | .ok code => (code, [])
  | .error err => (1, ["Error: " ++ err.message])

/-- One observable side effect performed by run() of src/main.rs on its
success path: worktree and branch operations, directory changes, and the
user command execution. -/
inductive Action where
  | createWorktree (path branch commit : String) (upstream : Option String)
  | changeDir (path : String)
  | runUserCommand (args : List String)
  | removeWorktreeAndBranch (path branch : String)
  | checkoutBranch (branch : String)
  | createBranch (branch commit : String)
  | deleteBranch (branch : String)
deriving DecidableEq, Repr

/-- Success-path embedding of run() from src/main.rs as the ordered list of
side effects it performs. The results of the git queries run() branches on
are parameters: the repository info (none when not inside a git repository),
the selected color, whether the arborist branch already exists (consulted
only in the non-bare branch of the match), and the post-run worktree status.
PathBuf::join is string concatenation with a slash. The worktree-existence
check of the bare branch only drives a verbose log line and the restoration
of the original directory happens in a Drop guard, so neither appears as an
action. -/
def run_trace (repo : Option GitRepo) (color : String) (command : List String)
    (branch_already_exists : Bool) (status : WorktreeStatus) : List Action :=
  match repo with
  | none => [Action.runUserCommand command]
  | some repo =>
    if repo.is_bare then
      let worktree_path := repo.root ++ "/worktrees/arborist-" ++ color
      let branch_name := "arborist/" ++ color
      [Action.createWorktree worktree_path branch_name repo.current_commit
         (some repo.current_branch),
       Action.changeDir worktree_path,
       Action.runUserCommand command] ++
      (if status.has_changes then []
       else if status.commits_ahead > 0 then []
       else [Action.removeWorktreeAndBranch worktree_path branch_name])
    else
      let branch_name := "arborist/" ++ color
      ((if branch_already_exists then [Action.checkoutBranch branch_name]
        else [Action.createBranch branch_name repo.current_commit]) ++
       [Action.runUserCommand command]) ++
      (if status.has_changes then []
       else if status.commits_ahead > 0 then []
       else [Action.checkoutBranch repo.current_branch,
             Action.deleteBranch branch_name])

/-- True for the actions that tear the isolation down: removing the worktree
together with its branch (bare case) or deleting the arborist branch
(non-bare case). -/
def Action.discards : Action → Bool
  | .removeWorktreeAndBranch _ _ => true
  | .deleteBranch _ => true
  | _ => false

/-- True when the trace discards the isolation workspace. -/
def discards_isolation (trace : List Action) : Bool :=
  trace.any Action.discards

/-- True for worktree-creation actions. -/
def Action.creates_worktree : Action → Bool
  | .createWorktree _ _ _ _ => true
  | _ => false

/-- True for directory-change actions. -/
def Action.changes_dir : Action → Bool
  | .changeDir _ => true
  | _ => false

/-- C1: after the user command runs inside an isolated branch or worktree,
the cleanup decision follows the truth table of the spec: the isolation is
discarded exactly when there are no uncommitted changes and the ahead count
is zero; uncommitted changes, or a positive ahead count, retain it. In the
bare case the discarding action removes the worktree together with its
branch. -/
theorem cleanup_truth_table (repo : GitRepo) (color : String)
    (command : List String) (branch_already_exists : Bool)
    (status : WorktreeStatus) :
    discards_isolation
        (run_trace (some repo) color command branch_already_exists status) =
      (!status.has_changes && status.commits_ahead == 0) ∧
    (repo.is_bare = true →
      (Action.removeWorktreeAndBranch (repo.root ++ "/worktrees/arborist-" ++ color)
          ("arborist/" ++ color) ∈
          run_trace (some repo) color command branch_already_exists status ↔
        status.has_changes = false ∧ status.commits_ahead = 0)) := by
  obtain ⟨root, cur_branch, cur_commit, bare⟩ := repo
  obtain ⟨hc, ca⟩ := status
  constructor
  · cases bare <;> cases hc <;> cases branch_already_exists <;>
      rcases Nat.eq_zero_or_pos ca with h | h <;>
      simp [run_trace, discards_isolation, Action.discards, h] <;> omega
  · intro hb
    simp only at hb
    subst hb
    cases hc <;> rcases Nat.eq_zero_or_pos ca with h | h <;>
      (simp [run_trace, h]; try omega)

/-- C1 witness: for a bare repository with no changes and zero commits
ahead, the trace discards the isolation and contains the combined
worktree-and-branch removal. -/
theorem cleanup_truth_table_witness :
    discards_isolation (run_trace (some ⟨"/repo.git", "main", "abc", true⟩)
        "teal" ["true"] false ⟨false, 0⟩) = true ∧
    Action.removeWorktreeAndBranch "/repo.git/worktrees/arborist-teal"
        "arborist/teal" ∈
      run_trace (some ⟨"/repo.git", "main", "abc", true⟩) "teal" ["true"] false
        ⟨false, 0⟩ := by
  have h := cleanup_truth_table ⟨"/repo.git", "main", "abc", true⟩ "teal"
    ["true"] false ⟨false, 0⟩
  exact ⟨h.1, (h.2 rfl).mpr ⟨rfl, rfl⟩⟩

/-- C2 counterexample: for a concrete non-bare repository, the success-path
trace of run() creates a branch in place, changes no directory and creates
no worktree at all; in particular the user command does not run in a
worktree under the temp directory. -/
theorem nonbare_worktree_counterexample :
    run_trace (some ⟨"/home/u/proj", "main", "abc", false⟩) "teal" ["true"]
        false ⟨false, 0⟩ =
      [Action.createBranch "arborist/teal" "abc",
       Action.runUserCommand ["true"],
       Action.checkoutBranch "main",
       Action.deleteBranch "arborist/teal"] ∧
    (run_trace (some ⟨"/home/u/proj", "main", "abc", false⟩) "teal" ["true"]
        false ⟨false, 0⟩).any Action.creates_worktree = false ∧
    (run_trace (some ⟨"/home/u/proj", "main", "abc", false⟩) "teal" ["true"]
        false ⟨false, 0⟩).any Action.changes_dir = false := by
  decide

/-- C2 amended: for every non-bare repository, run() creates no worktree and
performs no directory change: it isolates via the in-place branch
arborist/label, created from the current commit or checked out when it
already exists; the temp-directory worktree path of the spec is computed
only by the helper compute_nonbare_worktree_path, which run() never calls,
and that helper returns /tmp/arborist/ followed by the hex digest of the
repository root and the label. -/
theorem nonbare_isolation_via_branch (repo : GitRepo) (color : String)
    (command : List String) (branch_already_exists : Bool)
    (status : WorktreeStatus) (sha256_hex : String → String)
    (hb : repo.is_bare = false) :
    (run_trace (some repo) color command branch_already_exists status).any
        Action.creates_worktree = false ∧
    (run_trace (some repo) color command branch_already_exists status).any
        Action.changes_dir = false ∧
    (branch_already_exists = false →
      (run_trace (some repo) color command branch_already_exists status).head? =
        some (Action.createBranch ("arborist/" ++ color) repo.current_commit)) ∧
    (branch_already_exists = true →
      (run_trace (some repo) color command branch_already_exists status).head? =
        some (Action.checkoutBranch ("arborist/" ++ color))) ∧
    compute_nonbare_worktree_path sha256_hex repo.root color =
      "/tmp/arborist/" ++ sha256_hex repo.root ++ "/" ++ color := by
  obtain ⟨root, cur_branch, cur_commit, bare⟩ := repo
  simp only at hb
  subst hb
  obtain ⟨hc, ca⟩ := status
  refine ⟨?_, ?_, ?_, ?_, rfl⟩ <;>
    cases branch_already_exists <;> cases hc <;>
      rcases Nat.eq_zero_or_pos ca with h | h <;>
      simp [run_trace, Action.creates_worktree, Action.changes_dir, h,
        Nat.pos_iff_ne_zero, compute_nonbare_worktree_path]

/-- C2 witness: a concrete non-bare repository run creates no worktree and
starts by creating the arborist branch. -/
theorem nonbare_isolation_via_branch_witness :
    (run_trace (some ⟨"/home/u/proj", "main", "abc", false⟩) "blue" ["make"]
        false ⟨true, 1⟩).any Action.creates_worktree = false ∧
    (run_trace (some ⟨"/home/u/proj", "main", "abc", false⟩) "blue" ["make"]
        false ⟨true, 1⟩).head? =
      some (Action.createBranch "arborist/blue" "abc") := by
  have h := nonbare_isolation_via_branch ⟨"/home/u/proj", "main", "abc", false⟩
    "blue" ["make"] false ⟨true, 1⟩ (fun s => s) rfl
  exact ⟨h.1, h.2.2.1 rfl⟩

/-- C3 counterexample: for the bare repository at /repo.git with label teal,
the worktree is created at /repo.git/worktrees/arborist-teal, which differs
from the path /repo.git/arborist-teal stated by the claim, and no action
creates a worktree at the stated path. -/
theorem bare_worktree_path_counterexample :
    (run_trace (some ⟨"/repo.git", "main", "abc", true⟩) "teal" ["true"]
        false ⟨false, 0⟩).head? =
      some (Action.createWorktree "/repo.git/worktrees/arborist-teal"
        "arborist/teal" "abc" (some "main")) ∧
    "/repo.git/worktrees/arborist-teal" ≠ "/repo.git/arborist-teal" ∧
    (run_trace (some ⟨"/repo.git", "main", "abc", true⟩) "teal" ["true"]
        false ⟨false, 0⟩).any
      (fun a => a == Action.createWorktree "/repo.git/arborist-teal"
        "arborist/teal" "abc" (some "main")) = false := by
  decide

/-- C3 amended: for every bare repository, the first action of the trace
creates the worktree at root/worktrees/arborist-label on branch
arborist/label from the current commit, tracking the original branch; and
when the command leaves no changes and no commits ahead, the trace removes
that worktree together with its branch. -/
theorem bare_worktree_path (repo : GitRepo) (color : String)
    (command : List String) (branch_already_exists : Bool)
    (status : WorktreeStatus) (hb : repo.is_bare = true) :
    (run_trace (some repo) color command branch_already_exists status).head? =
      some (Action.createWorktree (repo.root ++ "/worktrees/arborist-" ++ color)
        ("arborist/" ++ color) repo.current_commit (some repo.current_branch)) ∧
    (status.has_changes = false → status.commits_ahead = 0 →
      Action.removeWorktreeAndBranch (repo.root ++ "/worktrees/arborist-" ++ color)
          ("arborist/" ++ color) ∈
        run_trace (some repo) color command branch_already_exists status) := by
  obtain ⟨root, cur_branch, cur_commit, bare⟩ := repo
  simp only at hb
  subst hb
  obtain ⟨hc, ca⟩ := status
  constructor
  · cases hc <;> rcases Nat.eq_zero_or_pos ca with h | h <;>
      simp [run_trace, h, Nat.pos_iff_ne_zero]
  · intro h1 h2
    simp only at h1 h2
    subst h1
    subst h2
    simp [run_trace]

/-- C3 witness: the bare repository at /repo.git with label teal gets its
worktree at /repo.git/worktrees/arborist-teal and, with a clean status, the
removal action is present. -/
theorem bare_worktree_path_witness :
    (run_trace (some ⟨"/repo.git", "main", "abc", true⟩) "teal" ["true"]
        false ⟨false, 0⟩).head? =
      some (Action.createWorktree "/repo.git/worktrees/arborist-teal"
        "arborist/teal" "abc" (some "main")) ∧
    Action.removeWorktreeAndBranch "/repo.git/worktrees/arborist-teal"
        "arborist/teal" ∈
      run_trace (some ⟨"/repo.git", "main", "abc", true⟩) "teal" ["true"]
        false ⟨false, 0⟩ := by
  have h := bare_worktree_path ⟨"/repo.git", "main", "abc", true⟩ "teal"
    ["true"] false ⟨false, 0⟩ rfl
  exact ⟨h.1, h.2 rfl rfl⟩

/-- C4 counterexample: select_color is a function of the random draw alone;
it has no parent-process-id parameter. Two draws that are both possible
within one and the same parent process give different labels (red for draw
0, teal for draw 8), so the label is not a pure function of the parent
process id: the deterministic mode described by the claim does not exist in
the code. -/
theorem deterministic_label_counterexample :
    select_color ⟨0, by decide⟩ = "red" ∧
    select_color ⟨8, by decide⟩ = "teal" ∧
    select_color ⟨0, by decide⟩ ≠ select_color ⟨8, by decide⟩ := by
  decide

/-- C4 amended: label selection is always random: select_color consults only
the uniform random draw and returns the drawn entry of the fixed 27-entry
palette; distinct draws can give distinct labels, so repeated invocations
from the same parent process need not agree. -/
theorem select_color_random (draw : Fin COLORS.length) :
    select_color draw ∈ COLORS ∧ COLORS.length = 27 ∧
    ∃ d1 d2 : Fin COLORS.length, select_color d1 ≠ select_color d2 := by
  refine ⟨?_, by decide, ⟨0, by decide⟩, ⟨8, by decide⟩, by decide⟩
  obtain ⟨n, hn⟩ := draw
  exact List.get_mem COLORS n hn

/-- C5: running the user command never fails solely because of a nonzero
exit code: with a spawned child that exits with any code c, the result is
ok c; only a spawn or pipe failure produces an error; and main maps ok c to
process exit code c with no error line, while any internal error maps to
exit code 1 with an Error line on stderr. -/
theorem execute_and_exit_code_spec (w : ExecWorld) (program : String)
    (args : List String) :
    (∀ c : Int, w.spawn program args = .exited (some c) →
      (execute_shell_command w (program :: args)).1 = .ok c) ∧
    (∀ msg : String, w.spawn program args = .spawnError msg →
      (execute_shell_command w (program :: args)).1 = .error (.ioError msg)) ∧
    (∀ c : Int, main_exit_and_stderr (.ok c) = (c, [])) ∧
    (∀ e : ArboristError,
      main_exit_and_stderr (.error e) = (1, ["Error: " ++ e.message])) := by
  refine ⟨fun c h => ?_, fun msg h => ?_, fun c => rfl, fun e => rfl⟩
  · simp [execute_shell_command, h]
  · simp [execute_shell_command, h]

/-- C5 witness: a child exiting with code 7 yields ok 7, a spawn failure
yields an error, main propagates ok 7 as exit code 7, and main maps an
internal error to exit code 1 with its Error line. -/
theorem execute_and_exit_code_spec_witness :
    (execute_shell_command ⟨fun _ _ => SpawnOutcome.exited (some 7)⟩
        ["sh"]).1 = .ok 7 ∧
    (execute_shell_command ⟨fun _ _ => SpawnOutcome.spawnError "notfound"⟩
        ["sh"]).1 = .error (.ioError "notfound") ∧
    main_exit_and_stderr (.ok 7) = (7, []) ∧
    main_exit_and_stderr (.error (.gitOperationFailed "boom")) =
      (1, ["Error: " ++ (ArboristError.gitOperationFailed "boom").message]) := by
  exact ⟨(execute_and_exit_code_spec ⟨fun _ _ => SpawnOutcome.exited (some 7)⟩
      "sh" []).1 7 rfl,
    (execute_and_exit_code_spec ⟨fun _ _ => SpawnOutcome.spawnError "notfound"⟩
      "sh" []).2.1 "notfound" rfl,
    (execute_and_exit_code_spec ⟨fun _ _ => SpawnOutcome.exited (some 7)⟩
      "sh" []).2.2.1 7,
    (execute_and_exit_code_spec ⟨fun _ _ => SpawnOutcome.exited (some 7)⟩
      "sh" []).2.2.2 (ArboristError.gitOperationFailed "boom")⟩

/-- C6: create_worktree is idempotent: when the worktree listing already
contains the path (and the base directory is present, as it always is for
an existing worktree), create_worktree succeeds and issues only the listing
query, creating nothing new. -/
theorem create_worktree_idempotent (w : GitWorld)
    (path branch commit : String) (upstream : Option String)
    (parent output : String)
    (hp : path_parent path = some parent)
    (hd : w.dirExists parent = true)
    (hr : w.resolve ["worktree", "list"] = .success output)
    (hc : contains_sub (trim_string output).toList path.toList = true) :
    create_worktree w path branch commit upstream =
      (.ok (), [["worktree", "list"]]) := by
  have hc2 : contains_sub (trim_string output).data path.data = true := hc
  simp [create_worktree, ensure_worktree_base_dir, worktree_exists,
    run_git_cmd, hp, hd, hr, hc2]

/-- C6 witness: with a listing that already mentions /tmp/wt, creating the
worktree at /tmp/wt again succeeds and only runs the listing query. -/
theorem create_worktree_idempotent_witness :
    create_worktree
        ⟨fun _ => .success "/tmp/wt  1234 [arborist/teal]", fun _ => true,
          fun _ => false⟩
        "/tmp/wt" "arborist/teal" "abc" none =
      (.ok (), [["worktree", "list"]]) :=
  create_worktree_idempotent _ "/tmp/wt" "arborist/teal" "abc" none "/tmp"
    "/tmp/wt  1234 [arborist/teal]" (by decide) rfl rfl (by decide)

/-- C7: remove_worktree_and_branch removes the worktree first and deletes
the branch second: when worktree removal fails, the composite fails with
that error and the branch deletion command is never issued; the composite
succeeds exactly when both steps succeed; and after a successful removal the
composite runs the branch deletion and returns its result. -/
theorem remove_worktree_and_branch_spec (w : GitWorld) (path branch : String) :
    (∀ e : ArboristError, (remove_worktree w path).1 = .error e →
      remove_worktree_and_branch w path branch =
        (.error e, [["worktree", "remove", path, "--force"]])) ∧
    ((remove_worktree_and_branch w path branch).1 = .ok () ↔
      (remove_worktree w path).1 = .ok () ∧
        (delete_branch w branch).1 = .ok ()) ∧
    ((remove_worktree w path).1 = .ok () →
      remove_worktree_and_branch w path branch =
        ((delete_branch w branch).1,
         [["worktree", "remove", path, "--force"], ["branch", "-D", branch]])) := by
  cases hrm : w.resolve ["worktree", "remove", path, "--force"] <;>
    cases hbr : w.resolve ["branch", "-D", branch] <;>
    simp [remove_worktree_and_branch, remove_worktree, delete_branch,
      run_git_cmd, hrm, hbr]

/-- C7 witness: with a locked worktree the composite fails without issuing
the branch deletion; with a clean world the composite removes the worktree
and then deletes the branch. -/
theorem remove_worktree_and_branch_spec_witness :
    remove_worktree_and_branch
        ⟨fun _ => .failure "locked", fun _ => true, fun _ => true⟩ "/p" "b" =
      (.error (.gitOperationFailed ("Failed to remove worktree: " ++ "locked")),
       [["worktree", "remove", "/p", "--force"]]) ∧
    remove_worktree_and_branch
        ⟨fun _ => .success "", fun _ => true, fun _ => true⟩ "/p" "b" =
      ((delete_branch ⟨fun _ => .success "", fun _ => true, fun _ => true⟩ "b").1,
       [["worktree", "remove", "/p", "--force"], ["branch", "-D", "b"]]) := by
  exact ⟨(remove_worktree_and_branch_spec
      ⟨fun _ => .failure "locked", fun _ => true, fun _ => true⟩ "/p" "b").1 _ rfl,
    (remove_worktree_and_branch_spec
      ⟨fun _ => .success "", fun _ => true, fun _ => true⟩ "/p" "b").2.2 rfl⟩

/-- C8: get_commits_ahead returns ok 0 whenever resolving the upstream
tracking ref fails, treating a missing upstream as a normal condition; when
the upstream resolves and the ahead-count query reports a decimal count n,
it returns ok n; and the returned count is a natural number, hence
non-negative. -/
theorem get_commits_ahead_spec (w : GitWorld) :
    (∀ e : ArboristError,
      (run_git_cmd w ["rev-parse", "--abbrev-ref", "@\x7bupstream\x7d"]).1 =
        .error e →
      (get_commits_ahead w).1 = .ok 0) ∧
    (∀ br out n, w.resolve ["rev-parse", "--abbrev-ref", "@\x7bupstream\x7d"] =
        .success br →
      w.resolve ["rev-list", "--count", "@\x7bupstream\x7d..HEAD"] =
        .success out →
      parse_usize (trim_string out) = some n →
      (get_commits_ahead w).1 = .ok n) ∧
    (∀ n : Nat, (get_commits_ahead w).1 = .ok n → 0 ≤ n) := by
  refine ⟨fun e he => ?_, fun br out n h1 h2 h3 => ?_, fun n _ => Nat.zero_le n⟩
  · rcases hq : w.resolve ["rev-parse", "--abbrev-ref", "@\x7bupstream\x7d"] with
      msg | msg | msg
    · simp [get_commits_ahead, run_git_cmd, hq]
    · simp [get_commits_ahead, run_git_cmd, hq]
    · simp [run_git_cmd, hq] at he
  · simp [get_commits_ahead, run_git_cmd, h1, h2, h3]

/-- C8 witness: with no upstream configured the count is 0 without error;
with an upstream reporting 3 commits ahead the count is 3, and it is
non-negative. -/
theorem get_commits_ahead_spec_witness :
    (get_commits_ahead
        ⟨fun _ => .failure "no upstream configured", fun _ => true,
          fun _ => true⟩).1 = .ok 0 ∧
    (get_commits_ahead
        ⟨fun args =>
            if args = ["rev-list", "--count", "@\x7bupstream\x7d..HEAD"] then
              .success "3\n"
            else .success "origin/main",
          fun _ => true, fun _ => true⟩).1 = .ok 3 ∧
    0 ≤ (3 : Nat) := by
  refine ⟨(get_commits_ahead_spec
      ⟨fun _ => .failure "no upstream configured", fun _ => true,
        fun _ => true⟩).1
      (ArboristError.gitOperationFailed "no upstream configured") rfl,
    (get_commits_ahead_spec
      ⟨fun args =>
          if args = ["rev-list", "--count", "@\x7bupstream\x7d..HEAD"] then
            .success "3\n"
          else .success "origin/main",
        fun _ => true, fun _ => true⟩).2.1
      "origin/main" "3\n" 3 rfl rfl (by decide),
    (get_commits_ahead_spec
      ⟨fun args =>
          if args = ["rev-list", "--count", "@\x7bupstream\x7d..HEAD"] then
            .success "3\n"
          else .success "origin/main",
        fun _ => true, fun _ => true⟩).2.2 3 ?_⟩
  exact (get_commits_ahead_spec
      ⟨fun args =>
          if args = ["rev-list", "--count", "@\x7bupstream\x7d..HEAD"] then
            .success "3\n"
          else .success "origin/main",
        fun _ => true, fun _ => true⟩).2.1
      "origin/main" "3\n" 3 rfl rfl (by decide)

/-- C9: an empty command list yields exit code 0 and spawns no subprocess:
the recorded spawn list is empty. -/
theorem empty_command_no_subprocess (w : ExecWorld) :
    execute_shell_command w [] = (.ok 0, []) := rfl

/-- C10: a child that terminates without an exit code (killed by a signal)
yields exit code 1 rather than an error. -/
theorem signal_termination_exit_code (w : ExecWorld) (program : String)
    (args : List String) (h : w.spawn program args = .exited none) :
    (execute_shell_command w (program :: args)).1 = .ok 1 := by
  simp [execute_shell_command, h]

/-- C10 witness: a signal-killed child yields exit code 1. -/
theorem signal_termination_exit_code_witness :
    (execute_shell_command ⟨fun _ _ => SpawnOutcome.exited none⟩ ["sh"]).1 =
      .ok 1 :=
  signal_termination_exit_code ⟨fun _ _ => SpawnOutcome.exited none⟩ "sh" [] rfl

end Arborist
